import Mathlib

/-!
# Solar-system coursework: mesh generation, frame timing and model matrices

A shallow embedding of `src/source/coursework.cpp`.

Modelling conventions.

* In the mesh, orbit and matrix computations `float` values are elements of a
  field `α`; `+ - * /` are the exact field operations.  The transcendental and
  library functions the program calls (`sin`, `cos`, `glm::pi<float>()`,
  `glm::inversesqrt`) are collected in a record `FloatOps α`, so that every
  definition is computable and results that do not depend on trigonometric
  identities hold for any interpretation of them.  `exactOps` interprets them
  by the real functions.
* The acceptance test of `generateStarfield` is the one place where a comparison
  of computed `float` values decides a branch.  There the `float` operations are
  explicit (`FloatArith`), and `binary32` interprets them as IEEE 754 single
  precision on rational numbers: every product and sum is rounded to nearest,
  ties to even.
* `int` values are mathematical integers (`Int`).  Signed overflow is undefined
  behaviour in C++ and only arises for meshes with more than `2^31` vertices,
  which are outside this development.
* `std::vector<T>` is `List T`, `push_back` appends at the end.
* Decimal literals are written as the fractions they denote (`0.5f` is `1 / 2`,
  `23.5f` is `47 / 2`).
* Counted `for` loops whose counter is not assigned in the body are `forLoop`.
-/

namespace SolarSystem

/-- The library functions on `float` used by the program. -/
structure FloatOps (α : Type) where
  /-- The function `sin` from `<cmath>`. -/
  sin : α → α
  /-- The function `cos` from `<cmath>`. -/
  cos : α → α
  /-- The constant `glm::pi<float>()`. -/
  pi : α
  /-- The function `glm::inversesqrt`, used by `glm::normalize`. -/
  inversesqrt : α → α

/-- The loop `for (int i = 0; i < n; ++i) s = body(s, i);` started in state `init`. -/
def forLoop {σ : Type} (n : Int) (body : σ → Int → σ) (init : σ) : σ :=
  (List.range n.toNat).foldl (fun (s : σ) (i : Nat) => body s (Int.ofNat i)) init

/-- Conversion `int → unsigned int` performed by `indices.push_back(first)`: the value
itself for the non-negative values the loops produce. -/
def toUnsigned (i : Int) : Nat := i.toNat

/-- Function `generateSphere` (coursework.cpp, lines 102-138): appends the vertex
coordinates to `vertices` and the triangle indices to `indices`; the pair of
the two buffers after the call is returned. -/
def generateSphere {α : Type} [Field α] (F : FloatOps α) (vertices : List α) (indices : List Nat)
    (radius : α) (latSegments lonSegments : Int) : List α × List Nat :=
  let vertices := forLoop (latSegments + 1) (fun vertices lat =>
    let theta := (lat : α) * F.pi / (latSegments : α)
    let sinTheta := F.sin theta
    let cosTheta := F.cos theta
    forLoop (lonSegments + 1) (fun vertices lon =>
      let phi := (lon : α) * 2 * F.pi / (lonSegments : α)
      let sinPhi := F.sin phi
      let cosPhi := F.cos phi
      let x := cosPhi * sinTheta
      let y := cosTheta
      let z := sinPhi * sinTheta
      vertices ++ [radius * x, radius * y, radius * z]) vertices) vertices
  let indices := forLoop latSegments (fun indices lat =>
    forLoop lonSegments (fun indices lon =>
      let first := (lat * (lonSegments + 1)) + lon
      let second := first + lonSegments + 1
      indices ++ [toUnsigned first, toUnsigned second, toUnsigned (first + 1),
        toUnsigned second, toUnsigned (second + 1), toUnsigned (first + 1)]) indices) indices
  (vertices, indices)

/-- The `k`-th vertex of a flat coordinate buffer: entries `3k`, `3k+1`, `3k+2`. -/
def vertexAt {α : Type} (vertices : List α) (k : Nat) : Option (α × α × α) :=
  match vertices[3 * k]?, vertices[3 * k + 1]?, vertices[3 * k + 2]? with
  | some x, some y, some z => some (x, y, z)
  | _, _, _ => none

/-- The three coordinates pushed by the inner vertex loop at `(lat, lon)`. -/
def vertexCoords {α : Type} [Field α] (F : FloatOps α) (radius : α)
    (latSegments lonSegments lat lon : Int) : List α :=
  [radius * (F.cos ((lon : α) * 2 * F.pi / (lonSegments : α))
      * F.sin ((lat : α) * F.pi / (latSegments : α))),
   radius * F.cos ((lat : α) * F.pi / (latSegments : α)),
   radius * (F.sin ((lon : α) * 2 * F.pi / (lonSegments : α))
      * F.sin ((lat : α) * F.pi / (latSegments : α)))]

/-- The six indices pushed by the inner index loop at cell `(lat, lon)`. -/
def cellIndices (lonSegments lat lon : Int) : List Nat :=
  [toUnsigned (lat * (lonSegments + 1) + lon),
   toUnsigned (lat * (lonSegments + 1) + lon + lonSegments + 1),
   toUnsigned (lat * (lonSegments + 1) + lon + 1),
   toUnsigned (lat * (lonSegments + 1) + lon + lonSegments + 1),
   toUnsigned (lat * (lonSegments + 1) + lon + lonSegments + 1 + 1),
   toUnsigned (lat * (lonSegments + 1) + lon + 1)]

/-! ## Star field -/

/-- The `float` operations used by the acceptance test of `generateStarfield`. -/
structure FloatArith (α : Type) where
  /-- The sum `a + b` of two `float` values, as a `float`. -/
  add : α → α → α
  /-- The product `a * b` of two `float` values, as a `float`. -/
  mul : α → α → α
  /-- The comparison `a > b`. -/
  gt : α → α → Bool

/-- The value the program computes for `x * x + y * y + z * z`, which C++ parses
as `((x * x) + (y * y)) + (z * z)`. -/
def sumOfSquares {α : Type} (A : FloatArith α) (x y z : α) : α :=
  A.add (A.add (A.mul x x) (A.mul y y)) (A.mul z z)

/-- One pass through the rejection loop `do { x = distPos(gen); y = distPos(gen);
z = distPos(gen); } while (x*x + y*y + z*z > radius*radius);` of `generateStarfield`.
The random source `gen` is the list of values the successive calls `distPos(gen)`
will return; the result is the accepted point and the rest of the source, or
`none` when the source is used up before a candidate is accepted (the loop does
not finish on it). -/
def rejectionLoop {α : Type} (A : FloatArith α) (radius : α) :
    List α → Option ((α × α × α) × List α)
  | x :: y :: z :: gen =>
    if A.gt (sumOfSquares A x y z) (A.mul radius radius) then rejectionLoop A radius gen
    else some ((x, y, z), gen)
  | _ => none

/-- Body of the `for` loop of `generateStarfield` (lines 151-163) on the state
`(stars, gen)`: run the rejection loop, then push the accepted `x`, `y`, `z`. -/
def starfieldBody {α : Type} (A : FloatArith α) (radius : α)
    (st : Option (List α × List α)) : Option (List α × List α) :=
  match st with
  | none => none
  | some (stars, gen) =>
    match rejectionLoop A radius gen with
    | none => none
    | some ((x, y, z), gen) => some (stars ++ [x, y, z], gen)

/-- Function `generateStarfield` (coursework.cpp, lines 141-166) run on the random source
`gen`.  The call `stars.reserve(numStars * 3)` only sets the capacity when `numStars ≥ 0`
and throws for a negative count; `none` stands for every run that returns no
vector. -/
def generateStarfield {α : Type} (A : FloatArith α) (numStars : Int) (radius : α)
    (gen : List α) : Option (List α) :=
  if numStars < 0 then none
  else (forLoop numStars (fun st _ => starfieldBody A radius st) (some ([], gen))).map Prod.fst

/-- Number of candidates (consecutive triples of draws) of the source that pass
the acceptance test of the rejection loop. -/
def acceptedCount {α : Type} (A : FloatArith α) (radius : α) : List α → Nat
  | x :: y :: z :: gen =>
    (if A.gt (sumOfSquares A x y z) (A.mul radius radius) then 0 else 1)
      + acceptedCount A radius gen
  | _ => 0

/-- The buffer holds `n` points, each of which passes the acceptance test as the
program computes it. -/
def StarsAccepted {α : Type} (A : FloatArith α) (radius : α) (stars : List α) (n : Nat) :
    Prop :=
  stars.length = 3 * n
    ∧ ∀ k < n, ∃ x y z, vertexAt stars k = some (x, y, z)
        ∧ A.gt (sumOfSquares A x y z) (A.mul radius radius) = false

/-- Rounding of a rational number to the nearest integer, ties to the even one. -/
def roundNearestEven (q : ℚ) : ℤ :=
  if q - ⌊q⌋ < 1 / 2 then ⌊q⌋
  else if 1 / 2 < q - ⌊q⌋ then ⌊q⌋ + 1
  else if ⌊q⌋ % 2 = 0 then ⌊q⌋ else ⌊q⌋ + 1

/-- Rounding of a rational number to IEEE 754 binary32 (`float`), to nearest, ties
to even: a 24-bit significand at the exponent `e = ⌊log₂ |q|⌋`, and the fixed
quantum `2^-149` below `2^-126` (subnormal numbers).  Overflow to infinity, for
`|q| ≥ 2^128`, is not represented. -/
def roundBinary32 (q : ℚ) : ℚ :=
  let e := max (Int.log 2 |q|) (-126)
  (roundNearestEven (q / 2 ^ (e - 23)) : ℚ) * 2 ^ (e - 23)

/-- The `float` operations of the program on finite values: the exact result
rounded to binary32. -/
def binary32 : FloatArith ℚ where
  add := fun a b => roundBinary32 (a + b)
  mul := fun a b => roundBinary32 (a * b)
  gt := fun a b => decide (b < a)

/-! ## Vectors and matrices (GLM) -/

/-- The type `glm::vec3`. -/
@[ext]
structure Vec3 (α : Type) where
  x : α
  y : α
  z : α

/-- The type `glm::mat4`; entry `m i j` is row `i`, column `j`, so that GLM's column
access `m[j][i]` is `m i j` and GLM's `*` is the matrix product. -/
abbrev Mat4 (α : Type) := Matrix (Fin 4) (Fin 4) α

namespace Vec3

variable {α : Type} [Field α]

instance : Add (Vec3 α) := ⟨fun a b => ⟨a.x + b.x, a.y + b.y, a.z + b.z⟩⟩

instance : Sub (Vec3 α) := ⟨fun a b => ⟨a.x - b.x, a.y - b.y, a.z - b.z⟩⟩

/-- Multiplication of a vector by a `float` (either side in GLM). -/
def smul (c : α) (v : Vec3 α) : Vec3 α := ⟨c * v.x, c * v.y, c * v.z⟩

end Vec3

namespace glm

variable {α : Type} [Field α]

/-- Modelled from the GLM library (`glm/detail/func_trigonometric.inl`, not under
`src/`): `glm::radians(degrees)` multiplies by the constant π/180. -/
def radians (F : FloatOps α) (degrees : α) : α := degrees * (F.pi / 180)

/-- Modelled from the GLM library (`glm/detail/func_geometric.inl`): `glm::dot`. -/
def dot (a b : Vec3 α) : α := a.x * b.x + a.y * b.y + a.z * b.z

/-- Modelled from the GLM library (`glm/detail/func_geometric.inl`): `glm::cross`. -/
def cross (a b : Vec3 α) : Vec3 α :=
  ⟨a.y * b.z - b.y * a.z, a.z * b.x - b.z * a.x, a.x * b.y - b.x * a.y⟩

/-- Modelled from the GLM library (`glm/detail/func_geometric.inl`):
`glm::normalize(v) = v * inversesqrt(dot(v, v))`. -/
def normalize (F : FloatOps α) (v : Vec3 α) : Vec3 α :=
  Vec3.smul (F.inversesqrt (dot v v)) v

/-- The constructor `glm::mat4(d)`: the diagonal matrix with `d` on the diagonal. -/
def mat4 (d : α) : Mat4 α := Matrix.diagonal (fun _ => d)

/-- Modelled from the GLM library (`glm/ext/matrix_transform.inl`): `glm::translate(m, v)`
keeps columns 0-2 and sets column 3 to `m[0]*v[0] + m[1]*v[1] + m[2]*v[2] + m[3]`. -/
def translate (m : Mat4 α) (v : Vec3 α) : Mat4 α :=
  fun i j => if j = 3 then m i 0 * v.x + m i 1 * v.y + m i 2 * v.z + m i 3 else m i j

/-- The 3×3 matrix `Rotate` that `glm::rotate` builds from the angle and the
normalised axis; `rotateCoeff F angle v c r` is GLM's `Rotate[c][r]`. -/
def rotateCoeff (F : FloatOps α) (angle : α) (v : Vec3 α) (c r : Fin 3) : α :=
  let a := angle
  let c' := F.cos a
  let s := F.sin a
  let axis := normalize F v
  let temp := Vec3.smul (1 - c') axis
  match c, r with
  | 0, 0 => c' + temp.x * axis.x
  | 0, 1 => temp.x * axis.y + s * axis.z
  | 0, 2 => temp.x * axis.z - s * axis.y
  | 1, 0 => temp.y * axis.x - s * axis.z
  | 1, 1 => c' + temp.y * axis.y
  | 1, 2 => temp.y * axis.z + s * axis.x
  | 2, 0 => temp.z * axis.x + s * axis.y
  | 2, 1 => temp.z * axis.y - s * axis.x
  | 2, 2 => c' + temp.z * axis.z

/-- Modelled from the GLM library (`glm/ext/matrix_transform.inl`): `glm::rotate(m, angle, v)`.
Column `j < 3` of the result is `m[0]*Rotate[j][0] + m[1]*Rotate[j][1] + m[2]*Rotate[j][2]`,
column 3 is `m[3]`. -/
def rotate (F : FloatOps α) (m : Mat4 α) (angle : α) (v : Vec3 α) : Mat4 α :=
  fun i j =>
    match j with
    | 0 => m i 0 * rotateCoeff F angle v 0 0 + m i 1 * rotateCoeff F angle v 0 1
            + m i 2 * rotateCoeff F angle v 0 2
    | 1 => m i 0 * rotateCoeff F angle v 1 0 + m i 1 * rotateCoeff F angle v 1 1
            + m i 2 * rotateCoeff F angle v 1 2
    | 2 => m i 0 * rotateCoeff F angle v 2 0 + m i 1 * rotateCoeff F angle v 2 1
            + m i 2 * rotateCoeff F angle v 2 2
    | 3 => m i 3

/-- Modelled from the GLM library (`glm/ext/matrix_transform.inl`): `glm::scale(m, v)`
multiplies column `j < 3` by `v[j]` and keeps column 3. -/
def scale (m : Mat4 α) (v : Vec3 α) : Mat4 α :=
  fun i j =>
    match j with
    | 0 => m i 0 * v.x
    | 1 => m i 1 * v.y
    | 2 => m i 2 * v.z
    | 3 => m i 3

/-- The constructor `glm::vec3(s)`: all three components equal to `s`. -/
def vec3 (s : α) : Vec3 α := ⟨s, s, s⟩

end glm

/-! ## The render loop -/

/-- Vertex array objects created by `main`. -/
inductive VertexArray where
  | starVAO
  | sphereVAO
  deriving DecidableEq, Repr

/-- Primitive kinds passed to the draw calls. -/
inductive Primitive where
  | GL_POINTS
  | GL_TRIANGLES
  deriving DecidableEq, Repr

/-- What one `glDrawArrays` / `glDrawElements` call draws: the bound vertex array,
the primitive kind, the element count, and the values of the uniforms `model`
and `objectColor` at the time of the call.  (The uniforms `view` and `projection`
are set once per frame from the camera and are the same for all four calls.) -/
structure DrawRecord (α : Type) where
  vao : Option VertexArray
  mode : Primitive
  count : Nat
  model : Mat4 α
  objectColor : Vec3 α

/-- The part of the OpenGL state the frame writes: the two per-draw uniforms,
the vertex-array binding, and the draw calls issued so far. -/
structure GLState (α : Type) where
  model : Mat4 α
  objectColor : Vec3 α
  boundVAO : Option VertexArray
  drawn : List (DrawRecord α)

/-- The global variables of coursework.cpp (lines 42-47). -/
structure Globals (α : Type) where
  cameraPos : Vec3 α
  cameraFront : Vec3 α
  cameraUp : Vec3 α
  deltaTime : α
  lastFrame : α

/-- The keys polled by `processInput`: `true` when `glfwGetKey` reports `GLFW_PRESS`. -/
structure Keys where
  w : Bool
  s : Bool
  a : Bool
  d : Bool

section RenderLoop

variable {α : Type} [Field α]

/-- Call `glUniformMatrix4fv(modelLoc, 1, GL_FALSE, value_ptr(m))`. -/
def glUniformModel (m : Mat4 α) (gl : GLState α) : GLState α := { gl with model := m }

/-- Call `glUniform3f(colorLoc, r, g, b)`. -/
def glUniformColor (r g b : α) (gl : GLState α) : GLState α :=
  { gl with objectColor := ⟨r, g, b⟩ }

/-- Call `glBindVertexArray(vao)`. -/
def glBindVertexArray (vao : VertexArray) (gl : GLState α) : GLState α :=
  { gl with boundVAO := some vao }

/-- Call `glDrawArrays(mode, 0, count)`: draws with the current binding and uniforms. -/
def glDrawArrays (mode : Primitive) (count : Nat) (gl : GLState α) : GLState α :=
  { gl with drawn := gl.drawn ++ [⟨gl.boundVAO, mode, count, gl.model, gl.objectColor⟩] }

/-- Call `glDrawElements(mode, count, GL_UNSIGNED_INT, 0)`: draws with the current
binding and uniforms. -/
def glDrawElements (mode : Primitive) (count : Nat) (gl : GLState α) : GLState α :=
  { gl with drawn := gl.drawn ++ [⟨gl.boundVAO, mode, count, gl.model, gl.objectColor⟩] }

/-- Time logic of the main loop (lines 247-249):
`deltaTime = currentFrame - lastFrame; lastFrame = currentFrame;`. -/
def timeLogic (currentFrame : α) (g : Globals α) : Globals α :=
  let g := { g with deltaTime := currentFrame - g.lastFrame }
  { g with lastFrame := currentFrame }

/-- Function `processInput` (lines 49-60). -/
def processInput (F : FloatOps α) (keys : Keys) (g : Globals α) : Globals α :=
  let cameraSpeed := 5 * g.deltaTime
  let g := if keys.w then
      { g with cameraPos := g.cameraPos + Vec3.smul cameraSpeed g.cameraFront } else g
  let g := if keys.s then
      { g with cameraPos := g.cameraPos - Vec3.smul cameraSpeed g.cameraFront } else g
  let g := if keys.a then
      { g with cameraPos := g.cameraPos
          - Vec3.smul cameraSpeed (glm.normalize F (glm.cross g.cameraFront g.cameraUp)) } else g
  let g := if keys.d then
      { g with cameraPos := g.cameraPos
          + Vec3.smul cameraSpeed (glm.normalize F (glm.cross g.cameraFront g.cameraUp)) } else g
  g

/-- The vector `glm::vec3(earthX, 0.0f, earthZ)` of lines 293-302. -/
def earthPosition (F : FloatOps α) (currentFrame : α) : Vec3 α :=
  let earthOrbitRadius : α := 4
  let earthOrbitSpeed := glm.radians F 20
  let earthX := earthOrbitRadius * F.cos (earthOrbitSpeed * currentFrame)
  let earthZ := earthOrbitRadius * F.sin (earthOrbitSpeed * currentFrame)
  ⟨earthX, 0, earthZ⟩

/-- The matrix `model` uploaded for Earth (lines 290-309). -/
def earthModel (F : FloatOps α) (currentFrame : α) : Mat4 α :=
  let model := glm.mat4 1
  let earthRotationSpeed := glm.radians F 50
  let earthAxisTilt := glm.radians F (47 / 2)
  let model := glm.translate model (earthPosition F currentFrame)
  let model := glm.rotate F model (earthRotationSpeed * currentFrame) ⟨0, 1, 0⟩
  let model := glm.rotate F model earthAxisTilt ⟨0, 0, 1⟩
  let model := glm.scale model (glm.vec3 (1 / 2))
  model

/-- The vector `glm::vec3(venusX, 0.0f, venusZ)` of lines 321-329. -/
def venusPosition (F : FloatOps α) (currentFrame : α) : Vec3 α :=
  let venusOrbitRadius : α := 5 / 2
  let venusOrbitSpeed := glm.radians F 35
  let venusX := venusOrbitRadius * F.cos (venusOrbitSpeed * currentFrame + F.pi)
  let venusZ := venusOrbitRadius * F.sin (venusOrbitSpeed * currentFrame + F.pi)
  ⟨venusX, 0, venusZ⟩

/-- The matrix `model` uploaded for Venus (lines 318-335). -/
def venusModel (F : FloatOps α) (currentFrame : α) : Mat4 α :=
  let model := glm.mat4 1
  let venusRotationSpeed := glm.radians F 30
  let model := glm.translate model (venusPosition F currentFrame)
  let model := glm.rotate F model (venusRotationSpeed * currentFrame) ⟨0, 1, 0⟩
  let model := glm.scale model (glm.vec3 (2 / 5))
  model

/-- The constant `numStars` of `main` (line 227). -/
def numStars : Nat := 1000

/-- The draw section of one loop iteration (lines 272-341), as the sequence of
OpenGL calls it makes; `sphereIndexCount` is `sphereIndices.size()`. -/
def renderScene (F : FloatOps α) (sphereIndexCount : Nat) (currentFrame : α)
    (gl : GLState α) : GLState α :=
  -- Render Starfield
  let starModel : Mat4 α := glm.mat4 1
  let gl := glUniformModel starModel gl
  let gl := glUniformColor 1 1 1 gl
  let gl := glBindVertexArray VertexArray.starVAO gl
  let gl := glDrawArrays Primitive.GL_POINTS numStars gl
  -- Render Sun
  let model : Mat4 α := glm.mat4 1
  let gl := glUniformModel model gl
  let gl := glUniformColor 1 (1 / 2) (1 / 5) gl
  let gl := glBindVertexArray VertexArray.sphereVAO gl
  let gl := glDrawElements Primitive.GL_TRIANGLES sphereIndexCount gl
  -- Render Earth
  let gl := glUniformModel (earthModel F currentFrame) gl
  let gl := glUniformColor (1 / 5) (1 / 2) 1 gl
  let gl := glBindVertexArray VertexArray.sphereVAO gl
  let gl := glDrawElements Primitive.GL_TRIANGLES sphereIndexCount gl
  -- Render Venus
  let gl := glUniformModel (venusModel F currentFrame) gl
  let gl := glUniformColor (9 / 10) (7 / 10) (3 / 10) gl
  let gl := glBindVertexArray VertexArray.sphereVAO gl
  let gl := glDrawElements Primitive.GL_TRIANGLES sphereIndexCount gl
  gl

/-- One iteration of the main loop (lines 246-341): `currentFrame` is the value
of `glfwGetTime()`, `keys` the keyboard state; the result is the globals after
the iteration and the draw calls issued during it. -/
def mainLoopIteration (F : FloatOps α) (sphereIndexCount : Nat) (keys : Keys)
    (currentFrame : α) (g : Globals α) (gl : GLState α) :
    Globals α × List (DrawRecord α) :=
  let g := timeLogic currentFrame g
  let g := processInput F keys g
  let gl := renderScene F sphereIndexCount currentFrame { gl with drawn := [] }
  (g, gl.drawn)

end RenderLoop

/-- The initial values of the globals (lines 42-47). -/
def initialGlobals {α : Type} [Field α] : Globals α where
  cameraPos := ⟨0, 5, 12⟩
  cameraFront := ⟨0, -(3 / 10), -1⟩
  cameraUp := ⟨0, 1, 0⟩
  deltaTime := 0
  lastFrame := 0

/-- An OpenGL state before the first frame: nothing bound, nothing drawn. -/
def initialGL {α : Type} [Field α] : GLState α where
  model := 0
  objectColor := ⟨0, 0, 0⟩
  boundVAO := none
  drawn := []

/-! ## Exact arithmetic and the transforms named by the specification -/

/-- Interpretation of the library functions by the real functions. -/
noncomputable def exactOps : FloatOps ℝ where
  sin := Real.sin
  cos := Real.cos
  pi := Real.pi
  inversesqrt := fun x => 1 / Real.sqrt x

/-- Orbital position as the specification words it (step 1 of `evaluateTransform`):
`x = orbitRadius·cos(orbitAngularSpeed·t + phaseOffset)`, `y = 0`,
`z = orbitRadius·sin(orbitAngularSpeed·t + phaseOffset)`. -/
noncomputable def specOrbitalPosition (orbitRadius orbitAngularSpeed phaseOffset t : ℝ) :
    Vec3 ℝ :=
  ⟨orbitRadius * Real.cos (orbitAngularSpeed * t + phaseOffset), 0,
   orbitRadius * Real.sin (orbitAngularSpeed * t + phaseOffset)⟩

/-- Homogeneous translation by `(x, y, z)`. -/
def specTranslate {α : Type} [Field α] (x y z : α) : Mat4 α :=
  !![1, 0, 0, x;
     0, 1, 0, y;
     0, 0, 1, z;
     0, 0, 0, 1]

/-- Rotation by `θ` radians about the Y axis. -/
noncomputable def specRotateY (θ : ℝ) : Mat4 ℝ :=
  !![Real.cos θ, 0, Real.sin θ, 0;
     0, 1, 0, 0;
     -Real.sin θ, 0, Real.cos θ, 0;
     0, 0, 0, 1]

/-- Rotation by `θ` radians about the Z axis. -/
noncomputable def specRotateZ (θ : ℝ) : Mat4 ℝ :=
  !![Real.cos θ, -Real.sin θ, 0, 0;
     Real.sin θ, Real.cos θ, 0, 0;
     0, 0, 1, 0;
     0, 0, 0, 1]

/-- Uniform scaling by `s`. -/
def specScale {α : Type} [Field α] (s : α) : Mat4 α :=
  !![s, 0, 0, 0;
     0, s, 0, 0;
     0, 0, s, 0;
     0, 0, 0, 1]

/-! ## Loop lemmas -/

theorem forLoop_append {β : Type} (n : Int) (f : Int → List β) (init : List β) :
    forLoop n (fun s i => s ++ f i) init
      = init ++ (List.range n.toNat).flatMap (fun (i : Nat) => f (Int.ofNat i)) := by
  unfold forLoop
  induction n.toNat with
  | zero => simp
  | succ k ih =>
    rw [List.range_succ, List.foldl_append, ih, List.flatMap_append]
    simp

theorem forLoop_forLoop_append {β : Type} (n m : Int) (g : Int → Int → List β) (init : List β) :
    forLoop n (fun s i => forLoop m (fun s j => s ++ g i j) s) init
      = init ++ (List.range n.toNat).flatMap
          (fun (i : Nat) => (List.range m.toNat).flatMap
            (fun (j : Nat) => g (Int.ofNat i) (Int.ofNat j))) := by
  have h : (fun (s : List β) (i : Int) => forLoop m (fun s j => s ++ g i j) s)
      = fun s i => s ++ (List.range m.toNat).flatMap (fun (j : Nat) => g i (Int.ofNat j)) := by
    funext s i
    exact forLoop_append m (g i) s
  rw [h, forLoop_append]

theorem length_flatMap_range {β : Type} (f : Nat → List β) (k : Nat)
    (hk : ∀ i, (f i).length = k) (n : Nat) :
    ((List.range n).flatMap f).length = n * k := by
  induction n with
  | zero => simp
  | succ n ih => simp [List.range_succ, List.flatMap_append, ih, hk, Nat.succ_mul]

theorem getElem?_flatMap_range {β : Type} (f : Nat → List β) (k : Nat)
    (hk : ∀ i, (f i).length = k) (n i j : Nat) (hi : i < n) (hj : j < k) :
    ((List.range n).flatMap f)[i * k + j]? = (f i)[j]? := by
  induction n with
  | zero => omega
  | succ n ih =>
    rw [List.range_succ, List.flatMap_append]
    have hlen := length_flatMap_range f k hk n
    by_cases hin : i < n
    · have hlt : i * k + j < ((List.range n).flatMap f).length := by
        rw [hlen]
        calc i * k + j < i * k + k := by omega
          _ = (i + 1) * k := by ring
          _ ≤ n * k := Nat.mul_le_mul_right k hin
      rw [List.getElem?_append_left hlt]
      exact ih hin
    · have hi' : i = n := by omega
      subst hi'
      rw [List.getElem?_append_right (by rw [hlen]; omega), hlen]
      simp

/-! ## Closed form of `generateSphere` -/

theorem generateSphere_eq {α : Type} [Field α] (F : FloatOps α) (vertices : List α)
    (indices : List Nat) (radius : α) (latSegments lonSegments : Int) :
    generateSphere F vertices indices radius latSegments lonSegments
      = (vertices ++ (List.range (latSegments + 1).toNat).flatMap (fun (i : Nat) =>
            (List.range (lonSegments + 1).toNat).flatMap (fun (j : Nat) =>
              vertexCoords F radius latSegments lonSegments (Int.ofNat i) (Int.ofNat j))),
         indices ++ (List.range latSegments.toNat).flatMap (fun (i : Nat) =>
            (List.range lonSegments.toNat).flatMap (fun (j : Nat) =>
              cellIndices lonSegments (Int.ofNat i) (Int.ofNat j)))) := by
  simp only [generateSphere]
  rw [forLoop_forLoop_append, forLoop_forLoop_append]
  rfl

theorem length_vertexCoords {α : Type} [Field α] (F : FloatOps α) (radius : α)
    (latSegments lonSegments lat lon : Int) :
    (vertexCoords F radius latSegments lonSegments lat lon).length = 3 := rfl

theorem length_cellIndices (lonSegments lat lon : Int) :
    (cellIndices lonSegments lat lon).length = 6 := rfl

theorem length_generateSphere_fst {α : Type} [Field α] (F : FloatOps α) (radius : α)
    (L M : Nat) :
    (generateSphere F [] [] radius (L : Int) (M : Int)).1.length = (L + 1) * ((M + 1) * 3) := by
  rw [generateSphere_eq]
  simp only [List.nil_append]
  have h1 : ((L : Int) + 1).toNat = L + 1 := by omega
  have h2 : ((M : Int) + 1).toNat = M + 1 := by omega
  rw [h1, h2]
  apply length_flatMap_range
  intro i
  apply length_flatMap_range
  intro j
  rfl

theorem length_generateSphere_snd {α : Type} [Field α] (F : FloatOps α) (radius : α)
    (L M : Nat) :
    (generateSphere F [] [] radius (L : Int) (M : Int)).2.length = L * (M * 6) := by
  rw [generateSphere_eq]
  simp only [List.nil_append, Int.toNat_ofNat]
  apply length_flatMap_range
  intro i
  apply length_flatMap_range
  intro j
  rfl

theorem mem_generateSphere_snd {α : Type} [Field α] (F : FloatOps α) (radius : α)
    (L M : Nat) (k : Nat)
    (hk : k ∈ (generateSphere F [] [] radius (L : Int) (M : Int)).2) :
    ∃ lat lon : Nat, lat < L ∧ lon < M ∧ k ∈ cellIndices (M : Int) (lat : Int) (lon : Int) := by
  rw [generateSphere_eq] at hk
  simp only [List.nil_append, Int.toNat_ofNat, List.mem_flatMap, List.mem_range] at hk
  obtain ⟨lat, hlat, lon, hlon, hmem⟩ := hk
  exact ⟨lat, lon, hlat, hlon, hmem⟩

theorem cellIndices_lt (L M lat lon k : Nat) (hlat : lat < L) (hlon : lon < M)
    (hk : k ∈ cellIndices (M : Int) (lat : Int) (lon : Int)) :
    k < (L + 1) * (M + 1) := by
  have hmul : (lat + 1) * (M + 1) ≤ L * (M + 1) := Nat.mul_le_mul_right _ hlat
  have hexp : (L + 1) * (M + 1) = L * (M + 1) + (M + 1) := by ring
  have hexp2 : (lat + 1) * (M + 1) = lat * (M + 1) + (M + 1) := by ring
  have e1 : ((lat : Int) * ((M : Int) + 1) + (lon : Int)) = ((lat * (M + 1) + lon : Nat) : Int) := by
    push_cast; ring
  simp only [cellIndices, toUnsigned, List.mem_cons, List.mem_singleton, List.not_mem_nil,
    or_false, e1] at hk
  rcases hk with h | h | h | h | h | h <;> subst h <;> omega

theorem getElem?_generateSphere_snd {α : Type} [Field α] (F : FloatOps α) (radius : α)
    (L M lat lon k : Nat) (hlat : lat < L) (hlon : lon < M) (hk : k < 6) :
    (generateSphere F [] [] radius (L : Int) (M : Int)).2[6 * (lat * M + lon) + k]?
      = (cellIndices (M : Int) (lat : Int) (lon : Int))[k]? := by
  rw [generateSphere_eq]
  simp only [List.nil_append, Int.toNat_ofNat]
  have hpos : 6 * (lat * M + lon) + k = lat * (M * 6) + (lon * 6 + k) := by ring
  rw [hpos]
  have hin : lon * 6 + k < M * 6 := by omega
  rw [getElem?_flatMap_range _ (M * 6)
    (fun i => length_flatMap_range _ 6 (fun j => length_cellIndices _ _ _) M) L lat _ hlat hin]
  exact getElem?_flatMap_range _ 6 (fun j => length_cellIndices _ _ _) M lon k hlon hk

theorem getElem?_generateSphere_fst {α : Type} [Field α] (F : FloatOps α) (radius : α)
    (L M lat lon k : Nat) (hlat : lat ≤ L) (hlon : lon ≤ M) (hk : k < 3) :
    (generateSphere F [] [] radius (L : Int) (M : Int)).1[3 * (lat * (M + 1) + lon) + k]?
      = (vertexCoords F radius (L : Int) (M : Int) (lat : Int) (lon : Int))[k]? := by
  rw [generateSphere_eq]
  simp only [List.nil_append]
  have h1 : ((L : Int) + 1).toNat = L + 1 := by omega
  have h2 : ((M : Int) + 1).toNat = M + 1 := by omega
  rw [h1, h2]
  have hpos : 3 * (lat * (M + 1) + lon) + k = lat * ((M + 1) * 3) + (lon * 3 + k) := by ring
  rw [hpos]
  have hin : lon * 3 + k < (M + 1) * 3 := by omega
  rw [getElem?_flatMap_range _ ((M + 1) * 3)
    (fun i => length_flatMap_range _ 3 (fun j => length_vertexCoords _ _ _ _ _ _) (M + 1))
    (L + 1) lat _ (by omega) hin]
  exact getElem?_flatMap_range _ 3 (fun j => length_vertexCoords _ _ _ _ _ _) (M + 1) lon k
    (by omega) hk

theorem vertexAt_generateSphere_nat {α : Type} [Field α] (F : FloatOps α) (radius : α)
    (L M lat lon : Nat) (hlat : lat ≤ L) (hlon : lon ≤ M) :
    vertexAt (generateSphere F [] [] radius (L : Int) (M : Int)).1 (lat * (M + 1) + lon)
      = some (radius * (F.cos ((lon : α) * 2 * F.pi / (M : α))
                * F.sin ((lat : α) * F.pi / (L : α))),
              radius * F.cos ((lat : α) * F.pi / (L : α)),
              radius * (F.sin ((lon : α) * 2 * F.pi / (M : α))
                * F.sin ((lat : α) * F.pi / (L : α)))) := by
  have h0 := getElem?_generateSphere_fst F radius L M lat lon 0 hlat hlon (by omega)
  have h1 := getElem?_generateSphere_fst F radius L M lat lon 1 hlat hlon (by omega)
  have h2 := getElem?_generateSphere_fst F radius L M lat lon 2 hlat hlon (by omega)
  simp only [Nat.add_zero] at h0
  simp only [vertexAt, h0, h1, h2]
  simp [vertexCoords]

/-- Vertex `lat*(lonSegments+1)+lon` of the generated buffer, for a grid point
`0 ≤ lat ≤ latSegments`, `0 ≤ lon ≤ lonSegments`. -/
theorem vertexAt_generateSphere {α : Type} [Field α] (F : FloatOps α) (radius : α)
    (latSegments lonSegments lat lon : Int)
    (hlat0 : 0 ≤ lat) (hlat1 : lat ≤ latSegments) (hlon0 : 0 ≤ lon) (hlon1 : lon ≤ lonSegments) :
    vertexAt (generateSphere F [] [] radius latSegments lonSegments).1
        (lat * (lonSegments + 1) + lon).toNat
      = some (radius * (F.cos ((lon : α) * 2 * F.pi / (lonSegments : α))
                * F.sin ((lat : α) * F.pi / (latSegments : α))),
              radius * F.cos ((lat : α) * F.pi / (latSegments : α)),
              radius * (F.sin ((lon : α) * 2 * F.pi / (lonSegments : α))
                * F.sin ((lat : α) * F.pi / (latSegments : α)))) := by
  lift lat to Nat using hlat0 with a
  lift lon to Nat using hlon0 with b
  lift latSegments to Nat using (by omega) with L
  lift lonSegments to Nat using (by omega) with M
  have e1 : ((a : Int) * ((M : Int) + 1) + (b : Int)).toNat = a * (M + 1) + b := by
    have : ((a : Int) * ((M : Int) + 1) + (b : Int)) = ((a * (M + 1) + b : Nat) : Int) := by
      push_cast; ring
    rw [this, Int.toNat_ofNat]
  rw [e1, vertexAt_generateSphere_nat F radius L M a b (by exact_mod_cast hlat1)
    (by exact_mod_cast hlon1)]
  simp

/-- Every vertex number below `(latSegments+1)*(lonSegments+1)` is the number of
a grid point. -/
theorem vertex_number_grid (latSegments lonSegments : Int) (hlat : 0 ≤ latSegments)
    (hlon : 0 ≤ lonSegments) (k : Nat) (hk : (k : Int) < (latSegments + 1) * (lonSegments + 1)) :
    ∃ lat lon : Int, 0 ≤ lat ∧ lat ≤ latSegments ∧ 0 ≤ lon ∧ lon ≤ lonSegments
      ∧ (lat * (lonSegments + 1) + lon).toNat = k := by
  lift latSegments to Nat using hlat with L
  lift lonSegments to Nat using hlon with M
  have hk' : k < (L + 1) * (M + 1) := by exact_mod_cast hk
  refine ⟨((k / (M + 1) : Nat) : Int), ((k % (M + 1) : Nat) : Int), by positivity, ?_,
    by positivity, ?_, ?_⟩
  · have : k / (M + 1) < L + 1 := by
      rw [Nat.div_lt_iff_lt_mul (by omega)]
      exact hk'
    exact_mod_cast Nat.lt_succ_iff.mp this
  · have : k % (M + 1) < M + 1 := Nat.mod_lt _ (by omega)
    exact_mod_cast Nat.lt_succ_iff.mp this
  · have : (((k / (M + 1) : Nat) : Int) * ((M : Int) + 1) + ((k % (M + 1) : Nat) : Int))
        = ((k / (M + 1) * (M + 1) + k % (M + 1) : Nat) : Int) := by
      push_cast; ring
    rw [this, Int.toNat_ofNat]
    exact Nat.div_add_mod' k (M + 1)

/-- The six entries of the index buffer written for cell `(lat, lon)`. -/
theorem take_drop_generateSphere_snd {α : Type} [Field α] (F : FloatOps α) (radius : α)
    (latSegments lonSegments lat lon : Int)
    (hlat0 : 0 ≤ lat) (hlat1 : lat < latSegments) (hlon0 : 0 ≤ lon) (hlon1 : lon < lonSegments) :
    ((generateSphere F [] [] radius latSegments lonSegments).2.drop
        (6 * (lat * lonSegments + lon)).toNat).take 6
      = cellIndices lonSegments lat lon := by
  lift lat to Nat using hlat0 with a
  lift lon to Nat using hlon0 with b
  lift latSegments to Nat using (by omega) with L
  lift lonSegments to Nat using (by omega) with M
  have ha : a < L := by exact_mod_cast hlat1
  have hb : b < M := by exact_mod_cast hlon1
  have hpos : (6 * ((a : Int) * (M : Int) + (b : Int))).toNat = 6 * (a * M + b) := by
    have : (6 * ((a : Int) * (M : Int) + (b : Int))) = ((6 * (a * M + b) : Nat) : Int) := by
      push_cast; ring
    rw [this, Int.toNat_ofNat]
  rw [hpos]
  apply List.ext_getElem?
  intro k
  by_cases hk : k < 6
  · simp only [List.getElem?_take, hk, if_true, List.getElem?_drop]
    exact getElem?_generateSphere_snd F radius L M a b k ha hb hk
  · have h6 : 6 ≤ k := by omega
    rw [List.getElem?_eq_none (by simp; omega),
      List.getElem?_eq_none (by rw [length_cellIndices]; omega)]

/-- Row `lat = 0` is the north pole `(0, radius, 0)` in exact arithmetic. -/
theorem vertexAt_top_row (radius : ℝ) (latSegments lonSegments lon : Int)
    (hlat : 1 ≤ latSegments) (hlon0 : 0 ≤ lon) (hlon1 : lon ≤ lonSegments) :
    vertexAt (generateSphere exactOps [] [] radius latSegments lonSegments).1
        (0 * (lonSegments + 1) + lon).toNat = some (0, radius, 0) := by
  rw [vertexAt_generateSphere exactOps radius latSegments lonSegments 0 lon le_rfl (by omega)
    hlon0 hlon1]
  simp [exactOps]

/-- Row `lat = latSegments` is the south pole `(0, -radius, 0)` in exact arithmetic. -/
theorem vertexAt_bottom_row (radius : ℝ) (latSegments lonSegments lon : Int)
    (hlat : 1 ≤ latSegments) (hlon0 : 0 ≤ lon) (hlon1 : lon ≤ lonSegments) :
    vertexAt (generateSphere exactOps [] [] radius latSegments lonSegments).1
        (latSegments * (lonSegments + 1) + lon).toNat = some (0, -radius, 0) := by
  rw [vertexAt_generateSphere exactOps radius latSegments lonSegments latSegments lon (by omega)
    le_rfl hlon0 hlon1]
  have hL : (latSegments : ℝ) ≠ 0 := by
    have : latSegments ≠ 0 := by omega
    exact_mod_cast this
  have hθ : (latSegments : ℝ) * exactOps.pi / (latSegments : ℝ) = Real.pi := by
    show (latSegments : ℝ) * Real.pi / (latSegments : ℝ) = Real.pi
    field_simp
  rw [hθ]
  simp [exactOps]

/-- In every row the vertices at `lon = 0` and `lon = lonSegments` coincide in
exact arithmetic. -/
theorem vertexAt_seam (radius : ℝ) (latSegments lonSegments lat : Int)
    (hlon : 3 ≤ lonSegments) (hlat0 : 0 ≤ lat) (hlat1 : lat ≤ latSegments) :
    vertexAt (generateSphere exactOps [] [] radius latSegments lonSegments).1
        (lat * (lonSegments + 1) + 0).toNat
      = vertexAt (generateSphere exactOps [] [] radius latSegments lonSegments).1
        (lat * (lonSegments + 1) + lonSegments).toNat := by
  rw [vertexAt_generateSphere exactOps radius latSegments lonSegments lat 0 hlat0 hlat1 le_rfl
      (by omega),
    vertexAt_generateSphere exactOps radius latSegments lonSegments lat lonSegments hlat0 hlat1
      (by omega) le_rfl]
  have hM : (lonSegments : ℝ) ≠ 0 := by
    have : lonSegments ≠ 0 := by omega
    exact_mod_cast this
  have hφ : (lonSegments : ℝ) * 2 * exactOps.pi / (lonSegments : ℝ) = 2 * Real.pi := by
    show (lonSegments : ℝ) * 2 * Real.pi / (lonSegments : ℝ) = 2 * Real.pi
    field_simp
    ring
  rw [hφ]
  simp [exactOps]

theorem length_generateSphere {α : Type} [Field α] (F : FloatOps α) (radius : α)
    (latSegments lonSegments : Int) :
    (generateSphere F [] [] radius latSegments lonSegments).1.length
        = (latSegments + 1).toNat * ((lonSegments + 1).toNat * 3)
      ∧ (generateSphere F [] [] radius latSegments lonSegments).2.length
        = latSegments.toNat * (lonSegments.toNat * 6) := by
  rw [generateSphere_eq]
  simp only [List.nil_append]
  constructor
  · apply length_flatMap_range
    intro i
    apply length_flatMap_range
    intro j
    rfl
  · apply length_flatMap_range
    intro i
    apply length_flatMap_range
    intro j
    rfl

/-! ## Claims about `generateSphere` -/

/-- C1: for `latSegments ≥ 1`, `lonSegments ≥ 3` and every radius (in particular
every `radius > 0`), `generateSphere` called with empty buffers leaves `3*(latSegments+1)*(lonSegments+1)` floats in
`vertices` and `6*latSegments*lonSegments` entries in `indices`, and every entry
of `indices` is smaller than the vertex count `(latSegments+1)*(lonSegments+1)`. -/
theorem generateSphere_counts {α : Type} [Field α] (F : FloatOps α) (radius : α)
    (latSegments lonSegments : Int) (hlat : 1 ≤ latSegments) (hlon : 3 ≤ lonSegments) :
    ((generateSphere F [] [] radius latSegments lonSegments).1.length : Int)
        = 3 * ((latSegments + 1) * (lonSegments + 1))
      ∧ ((generateSphere F [] [] radius latSegments lonSegments).2.length : Int)
        = 6 * latSegments * lonSegments
      ∧ ∀ i ∈ (generateSphere F [] [] radius latSegments lonSegments).2,
          (i : Int) < (latSegments + 1) * (lonSegments + 1) := by
  lift latSegments to Nat using (by omega) with L
  lift lonSegments to Nat using (by omega) with M
  refine ⟨?_, ?_, ?_⟩
  · rw [length_generateSphere_fst]
    push_cast
    ring
  · rw [length_generateSphere_snd]
    push_cast
    ring
  · intro i hi
    obtain ⟨lat, lon, h1, h2, hmem⟩ := mem_generateSphere_snd F radius L M i hi
    have hlt := cellIndices_lt L M lat lon i h1 h2 hmem
    exact_mod_cast hlt

/-- Witness for C1: the 2 × 3 sphere of radius 1 has 36 coordinates, 36 indices,
all indices below 12. -/
theorem generateSphere_counts_witness :
    ((generateSphere exactOps [] [] 1 2 3).1.length : Int) = 3 * ((2 + 1) * (3 + 1))
      ∧ ((generateSphere exactOps [] [] 1 2 3).2.length : Int) = 6 * 2 * 3
      ∧ ∀ i ∈ (generateSphere exactOps [] [] 1 2 3).2, (i : Int) < (2 + 1) * (3 + 1) :=
  generateSphere_counts exactOps 1 2 3 (by norm_num) (by norm_num)

/-- C2: for `latSegments ≥ 1`, `lonSegments ≥ 3` and every cell `(lat, lon)` with
`0 ≤ lat < latSegments`, `0 ≤ lon < lonSegments`, the six entries of the index
buffer at positions `6*(lat*lonSegments+lon) .. +5` are
`[first, second, first+1, second, second+1, first+1]` with
`first = lat*(lonSegments+1)+lon` and `second = first+lonSegments+1`. -/
theorem generateSphere_cell_indices {α : Type} [Field α] (F : FloatOps α) (radius : α)
    (latSegments lonSegments lat lon : Int) (hlat : 1 ≤ latSegments) (hlon : 3 ≤ lonSegments)
    (hlat0 : 0 ≤ lat) (hlat1 : lat < latSegments) (hlon0 : 0 ≤ lon) (hlon1 : lon < lonSegments) :
    ((((generateSphere F [] [] radius latSegments lonSegments).2.drop
        (6 * (lat * lonSegments + lon)).toNat).take 6).map Int.ofNat)
      = [lat * (lonSegments + 1) + lon,
         lat * (lonSegments + 1) + lon + lonSegments + 1,
         lat * (lonSegments + 1) + lon + 1,
         lat * (lonSegments + 1) + lon + lonSegments + 1,
         lat * (lonSegments + 1) + lon + lonSegments + 1 + 1,
         lat * (lonSegments + 1) + lon + 1] := by
  lift latSegments to Nat using (by omega) with L
  lift lonSegments to Nat using (by omega) with M
  lift lat to Nat using hlat0 with a
  lift lon to Nat using hlon0 with b
  have ha : a < L := by exact_mod_cast hlat1
  have hb : b < M := by exact_mod_cast hlon1
  have hpos : (6 * ((a : Int) * (M : Int) + (b : Int))).toNat = 6 * (a * M + b) := by
    have : (6 * ((a : Int) * (M : Int) + (b : Int))) = ((6 * (a * M + b) : Nat) : Int) := by
      push_cast; ring
    rw [this, Int.toNat_ofNat]
  rw [hpos]
  have e1 : ((a : Int) * ((M : Int) + 1) + (b : Int)) = ((a * (M + 1) + b : Nat) : Int) := by
    push_cast; ring
  apply List.ext_getElem?
  intro k
  by_cases hk : k < 6
  · simp only [List.getElem?_map, List.getElem?_take, hk, if_true, List.getElem?_drop]
    rw [getElem?_generateSphere_snd F radius L M a b k ha hb hk]
    simp only [cellIndices, toUnsigned, e1]
    interval_cases k <;> simp <;> omega
  · have h6 : 6 ≤ k := by omega
    rw [List.getElem?_eq_none (by simp; omega), List.getElem?_eq_none (by simp; omega)]

/-- Witness for C2: cell `(1, 2)` of the 2 × 3 sphere. -/
theorem generateSphere_cell_indices_witness :
    ((((generateSphere exactOps [] [] 1 2 3).2.drop
        (6 * (1 * 3 + 2) : Int).toNat).take 6).map Int.ofNat)
      = [1 * (3 + 1) + 2, 1 * (3 + 1) + 2 + 3 + 1, 1 * (3 + 1) + 2 + 1,
         1 * (3 + 1) + 2 + 3 + 1, 1 * (3 + 1) + 2 + 3 + 1 + 1, 1 * (3 + 1) + 2 + 1] :=
  generateSphere_cell_indices exactOps 1 2 3 1 2 (by norm_num) (by norm_num) (by norm_num)
    (by norm_num) (by norm_num) (by norm_num)

/-- C3: with `sin` and `cos` the real functions (and exact real arithmetic), for
`latSegments ≥ 1`, `lonSegments ≥ 3` and every radius (in particular every
`radius > 0`), each of the `(latSegments+1)*(lonSegments+1)` vertices `(x, y, z)`
produced by `generateSphere` satisfies `x² + y² + z² = radius²`, whatever value
is used for `glm::pi<float>()`. -/
theorem generateSphere_on_sphere (F : FloatOps ℝ) (hsin : F.sin = Real.sin)
    (hcos : F.cos = Real.cos) (radius : ℝ) (latSegments lonSegments : Int)
    (hlat : 1 ≤ latSegments) (hlon : 3 ≤ lonSegments) (k : Nat)
    (hk : (k : Int) < (latSegments + 1) * (lonSegments + 1)) :
    ∃ x y z : ℝ, vertexAt (generateSphere F [] [] radius latSegments lonSegments).1 k
        = some (x, y, z) ∧ x ^ 2 + y ^ 2 + z ^ 2 = radius ^ 2 := by
  obtain ⟨lat, lon, h1, h2, h3, h4, rfl⟩ :=
    vertex_number_grid latSegments lonSegments (by omega) (by omega) k hk
  refine ⟨_, _, _, vertexAt_generateSphere F radius latSegments lonSegments lat lon h1 h2 h3 h4, ?_⟩
  rw [hsin, hcos]
  have hθ := Real.sin_sq_add_cos_sq ((lat : ℝ) * F.pi / (latSegments : ℝ))
  have hφ := Real.sin_sq_add_cos_sq ((lon : ℝ) * 2 * F.pi / (lonSegments : ℝ))
  linear_combination (radius ^ 2 * Real.sin ((lat : ℝ) * F.pi / (latSegments : ℝ)) ^ 2) * hφ
    + radius ^ 2 * hθ

/-- Witness for C3: vertex 5 of the 2 × 3 sphere of radius 1. -/
theorem generateSphere_on_sphere_witness :
    ∃ x y z : ℝ, vertexAt (generateSphere exactOps [] [] 1 2 3).1 5 = some (x, y, z)
      ∧ x ^ 2 + y ^ 2 + z ^ 2 = (1 : ℝ) ^ 2 :=
  generateSphere_on_sphere exactOps rfl rfl 1 2 3 (by norm_num) (by norm_num) 5 (by norm_num)

/-- C10: in exact real arithmetic, for `latSegments ≥ 1`, `lonSegments ≥ 3` and
every radius, the mesh of `generateSphere` has the seam and pole artefacts: in
every row the vertices at `lon = 0` and `lon = lonSegments` have the same
position; every vertex of row `0` is `(0, radius, 0)` and every vertex of row
`latSegments` is `(0, -radius, 0)`; hence in each top-row cell the first
triangle `(first, second, first+1)` of the index buffer has two different
corner indices `first`, `first+1` at the same position, and in each bottom-row
cell the second triangle `(second, second+1, first+1)` has its corners `second`,
`second+1` at the same position. -/
theorem generateSphere_seam_and_poles (radius : ℝ) (latSegments lonSegments : Int)
    (hlat : 1 ≤ latSegments) (hlon : 3 ≤ lonSegments) :
    (∀ lat : Int, 0 ≤ lat → lat ≤ latSegments →
        (vertexAt (generateSphere exactOps [] [] radius latSegments lonSegments).1
            (lat * (lonSegments + 1) + 0).toNat).isSome
        ∧ vertexAt (generateSphere exactOps [] [] radius latSegments lonSegments).1
            (lat * (lonSegments + 1) + 0).toNat
          = vertexAt (generateSphere exactOps [] [] radius latSegments lonSegments).1
            (lat * (lonSegments + 1) + lonSegments).toNat)
    ∧ (∀ lon : Int, 0 ≤ lon → lon ≤ lonSegments →
        vertexAt (generateSphere exactOps [] [] radius latSegments lonSegments).1
            (0 * (lonSegments + 1) + lon).toNat = some (0, radius, 0)
        ∧ vertexAt (generateSphere exactOps [] [] radius latSegments lonSegments).1
            (latSegments * (lonSegments + 1) + lon).toNat = some (0, -radius, 0))
    ∧ (∀ lon : Int, 0 ≤ lon → lon < lonSegments →
        ∃ a b c : Nat,
          ((generateSphere exactOps [] [] radius latSegments lonSegments).2.drop
              (6 * (0 * lonSegments + lon)).toNat).take 3 = [a, b, c]
          ∧ a ≠ c
          ∧ vertexAt (generateSphere exactOps [] [] radius latSegments lonSegments).1 a
              = some (0, radius, 0)
          ∧ vertexAt (generateSphere exactOps [] [] radius latSegments lonSegments).1 c
              = some (0, radius, 0))
    ∧ (∀ lon : Int, 0 ≤ lon → lon < lonSegments →
        ∃ a b c : Nat,
          ((generateSphere exactOps [] [] radius latSegments lonSegments).2.drop
              ((6 * ((latSegments - 1) * lonSegments + lon)).toNat + 3)).take 3 = [a, b, c]
          ∧ a ≠ b
          ∧ vertexAt (generateSphere exactOps [] [] radius latSegments lonSegments).1 a
              = some (0, -radius, 0)
          ∧ vertexAt (generateSphere exactOps [] [] radius latSegments lonSegments).1 b
              = some (0, -radius, 0)) := by
  refine ⟨?_, ?_, ?_, ?_⟩
  · intro lat h0 h1
    refine ⟨?_, vertexAt_seam radius latSegments lonSegments lat hlon h0 h1⟩
    rw [vertexAt_generateSphere exactOps radius latSegments lonSegments lat 0 h0 h1 le_rfl
      (by omega)]
    rfl
  · intro lon h0 h1
    exact ⟨vertexAt_top_row radius latSegments lonSegments lon hlat h0 h1,
      vertexAt_bottom_row radius latSegments lonSegments lon hlat h0 h1⟩
  · intro lon h0 h1
    have hcell := take_drop_generateSphere_snd exactOps radius latSegments lonSegments 0 lon
      le_rfl (by omega) h0 h1
    have htake := congrArg (List.take 3) hcell
    rw [List.take_take] at htake
    refine ⟨_, _, _, htake, ?_, ?_, ?_⟩
    · simp only [toUnsigned]
      omega
    · exact vertexAt_top_row radius latSegments lonSegments lon hlat h0 (by omega)
    · have := vertexAt_top_row radius latSegments lonSegments (lon + 1) hlat (by omega) (by omega)
      simpa [toUnsigned, add_assoc] using this
  · intro lon h0 h1
    have hcell := take_drop_generateSphere_snd exactOps radius latSegments lonSegments
      (latSegments - 1) lon (by omega) (by omega) h0 h1
    have hsplit := List.take_append_drop 6
      ((generateSphere exactOps [] [] radius latSegments lonSegments).2.drop
        (6 * ((latSegments - 1) * lonSegments + lon)).toNat)
    rw [hcell] at hsplit
    have hdrop : (generateSphere exactOps [] [] radius latSegments lonSegments).2.drop
        ((6 * ((latSegments - 1) * lonSegments + lon)).toNat + 3)
        = List.drop 3 ((generateSphere exactOps [] [] radius latSegments lonSegments).2.drop
            (6 * ((latSegments - 1) * lonSegments + lon)).toNat) := by
      rw [List.drop_drop, Nat.add_comm]
    rw [hdrop, ← hsplit]
    refine ⟨toUnsigned ((latSegments - 1) * (lonSegments + 1) + lon + lonSegments + 1),
      toUnsigned ((latSegments - 1) * (lonSegments + 1) + lon + lonSegments + 1 + 1),
      toUnsigned ((latSegments - 1) * (lonSegments + 1) + lon + 1),
      by simp [cellIndices], ?_, ?_, ?_⟩
    · simp only [toUnsigned]
      have : 0 ≤ (latSegments - 1) * (lonSegments + 1) :=
        mul_nonneg (by omega) (by omega)
      omega
    · have := vertexAt_bottom_row radius latSegments lonSegments lon hlat h0 (by omega)
      have e : (latSegments - 1) * (lonSegments + 1) + lon + lonSegments + 1
          = latSegments * (lonSegments + 1) + lon := by ring
      simpa [toUnsigned, e] using this
    · have := vertexAt_bottom_row radius latSegments lonSegments (lon + 1) hlat (by omega)
        (by omega)
      have e : (latSegments - 1) * (lonSegments + 1) + lon + lonSegments + 1 + 1
          = latSegments * (lonSegments + 1) + (lon + 1) := by ring
      simpa [toUnsigned, e] using this

/-- Witness for C10: the poles of the 2 × 3 sphere of radius 1, at `lon = 2`. -/
theorem generateSphere_seam_and_poles_witness :
    vertexAt (generateSphere exactOps [] [] 1 2 3).1 ((0 : Int) * (3 + 1) + 2).toNat
        = some (0, 1, 0)
      ∧ vertexAt (generateSphere exactOps [] [] 1 2 3).1 ((2 : Int) * (3 + 1) + 2).toNat
        = some (0, -1, 0) :=
  (generateSphere_seam_and_poles 1 2 3 (by norm_num) (by norm_num)).2.1 2 (by norm_num)
    (by norm_num)

/-- C5, counterexample: `generateSphere` reports nothing and fills the buffers for
invalid parameters.  With `radius = -1` (and `latSegments = 1`, `lonSegments = 3`)
it produces the full 8-vertex, 6-triangle mesh; with `latSegments = 0` it
produces 4 vertices and no triangle. -/
theorem generateSphere_invalid_parameters_counterexample :
    ((-1 : ℝ) ≤ 0
      ∧ (generateSphere exactOps [] [] (-1) 1 3).1.length = 24
      ∧ (generateSphere exactOps [] [] (-1) 1 3).2.length = 18)
    ∧ ((0 : Int) < 1
      ∧ (generateSphere exactOps [] [] 1 0 3).1.length = 12
      ∧ (generateSphere exactOps [] [] 1 0 3).2.length = 0) := by
  refine ⟨⟨by norm_num, ?_, ?_⟩, ⟨by norm_num, ?_, ?_⟩⟩
  · exact (length_generateSphere exactOps (-1) 1 3).1
  · exact (length_generateSphere exactOps (-1) 1 3).2
  · exact (length_generateSphere exactOps 1 0 3).1
  · exact (length_generateSphere exactOps 1 0 3).2

/-- C5, amended: `generateSphere` has no validation and no error result.  Where its
`int` arithmetic stays in range it returns for invalid parameters too: for
every radius (also `radius ≤ 0`) and `latSegments ≥ 0`, `lonSegments ≥ 0` with
`(latSegments+1)*(lonSegments+1) < 2^31` it leaves `3*(latSegments+1)*(lonSegments+1)`
floats and `6*latSegments*lonSegments` indices in the initially empty buffers;
it leaves both buffers empty when `latSegments < 0`, and when `lonSegments < 0`
and `latSegments < 2^31 - 1`. -/
theorem generateSphere_no_validation {α : Type} [Field α] (F : FloatOps α) (radius : α)
    (latSegments lonSegments : Int) :
    (0 ≤ latSegments → 0 ≤ lonSegments → (latSegments + 1) * (lonSegments + 1) < 2 ^ 31 →
        ((generateSphere F [] [] radius latSegments lonSegments).1.length : Int)
            = 3 * ((latSegments + 1) * (lonSegments + 1))
          ∧ ((generateSphere F [] [] radius latSegments lonSegments).2.length : Int)
            = 6 * latSegments * lonSegments)
      ∧ (latSegments < 0 →
          generateSphere F [] [] radius latSegments lonSegments = ([], []))
      ∧ (lonSegments < 0 → latSegments < 2 ^ 31 - 1 →
          generateSphere F [] [] radius latSegments lonSegments = ([], [])) := by
  obtain ⟨h1, h2⟩ := length_generateSphere F radius latSegments lonSegments
  refine ⟨?_, ?_, ?_⟩
  · intro hlat hlon _
    lift latSegments to Nat using hlat with L
    lift lonSegments to Nat using hlon with M
    have e1 : ((L : Int) + 1).toNat = L + 1 := by omega
    have e2 : ((M : Int) + 1).toNat = M + 1 := by omega
    rw [h1, h2, e1, e2, Int.toNat_ofNat, Int.toNat_ofNat]
    constructor <;> push_cast <;> ring
  · intro hlat
    have e1 : (latSegments + 1).toNat = 0 := by omega
    have e2 : latSegments.toNat = 0 := by omega
    rw [e1, Nat.zero_mul] at h1
    rw [e2, Nat.zero_mul] at h2
    exact Prod.ext (List.length_eq_zero.mp h1) (List.length_eq_zero.mp h2)
  · intro hlon _
    have e1 : (lonSegments + 1).toNat = 0 := by omega
    have e2 : lonSegments.toNat = 0 := by omega
    rw [e1, Nat.zero_mul, Nat.mul_zero] at h1
    rw [e2, Nat.zero_mul, Nat.mul_zero] at h2
    exact Prod.ext (List.length_eq_zero.mp h1) (List.length_eq_zero.mp h2)

/-- Witness for the amended C5: radius `-1` with `latSegments = 1`, `lonSegments = 3`. -/
theorem generateSphere_no_validation_witness :
    ((generateSphere exactOps [] [] (-1) 1 3).1.length : Int) = 3 * ((1 + 1) * (3 + 1))
      ∧ ((generateSphere exactOps [] [] (-1) 1 3).2.length : Int) = 6 * 1 * 3 :=
  (generateSphere_no_validation exactOps (-1) 1 3).1 (by norm_num) (by norm_num) (by norm_num)

/-! ## The frame: time step and draw calls -/

theorem processInput_deltaTime {α : Type} [Field α] (F : FloatOps α) (keys : Keys)
    (g : Globals α) :
    (processInput F keys g).deltaTime = g.deltaTime
      ∧ (processInput F keys g).lastFrame = g.lastFrame := by
  unfold processInput
  cases keys.w <;> cases keys.s <;> cases keys.a <;> cases keys.d <;> simp

theorem mainLoopIteration_fst {α : Type} [Field α] (F : FloatOps α) (n : Nat) (keys : Keys)
    (currentFrame : α) (g : Globals α) (gl : GLState α) :
    (mainLoopIteration F n keys currentFrame g gl).1.deltaTime = currentFrame - g.lastFrame
      ∧ (mainLoopIteration F n keys currentFrame g gl).1.lastFrame = currentFrame := by
  have h := processInput_deltaTime F keys (timeLogic currentFrame g)
  simp only [mainLoopIteration, h.1, h.2]
  simp [timeLogic]

theorem mainLoopIteration_snd {α : Type} [Field α] (F : FloatOps α) (n : Nat) (keys : Keys)
    (currentFrame : α) (g : Globals α) (gl : GLState α) :
    (mainLoopIteration F n keys currentFrame g gl).2
      = [⟨some VertexArray.starVAO, Primitive.GL_POINTS, numStars, 1, ⟨1, 1, 1⟩⟩,
         ⟨some VertexArray.sphereVAO, Primitive.GL_TRIANGLES, n, 1, ⟨1, 1 / 2, 1 / 5⟩⟩,
         ⟨some VertexArray.sphereVAO, Primitive.GL_TRIANGLES, n, earthModel F currentFrame,
           ⟨1 / 5, 1 / 2, 1⟩⟩,
         ⟨some VertexArray.sphereVAO, Primitive.GL_TRIANGLES, n, venusModel F currentFrame,
           ⟨9 / 10, 7 / 10, 3 / 10⟩⟩] := by
  simp [mainLoopIteration, renderScene, glUniformModel, glUniformColor, glBindVertexArray,
    glDrawArrays, glDrawElements, glm.mat4]

/-- C6, counterexample: starting from the initial globals, a frame at time 2
followed by a frame at time 1 (a time step of -1) stores `deltaTime = -1`, not 0. -/
theorem clock_clamp_counterexample :
    (1 : ℝ) - (mainLoopIteration exactOps 0 ⟨false, false, false, false⟩ 2
        initialGlobals initialGL).1.lastFrame < 0
      ∧ (mainLoopIteration exactOps 0 ⟨false, false, false, false⟩ 1
          (mainLoopIteration exactOps 0 ⟨false, false, false, false⟩ 2
            initialGlobals initialGL).1 initialGL).1.deltaTime = -1
      ∧ (mainLoopIteration exactOps 0 ⟨false, false, false, false⟩ 1
          (mainLoopIteration exactOps 0 ⟨false, false, false, false⟩ 2
            initialGlobals initialGL).1 initialGL).1.deltaTime ≠ 0 := by
  rw [(mainLoopIteration_fst exactOps 0 _ 1 _ initialGL).1,
    (mainLoopIteration_fst exactOps 0 _ 2 initialGlobals initialGL).2]
  norm_num

/-- C6, amended: the frame stores `deltaTime = currentFrame - lastFrame` without
clamping (so a negative time step gives a negative `deltaTime`), sets
`lastFrame = currentFrame`, and builds the Earth and Venus matrices at the time
`currentFrame` reported by the time source, whatever the previous frame's time was. -/
theorem frame_time_not_clamped {α : Type} [LinearOrderedField α] (F : FloatOps α) (n : Nat)
    (keys : Keys) (currentFrame : α) (g : Globals α) (gl : GLState α) :
    (mainLoopIteration F n keys currentFrame g gl).1.deltaTime = currentFrame - g.lastFrame
      ∧ (mainLoopIteration F n keys currentFrame g gl).1.lastFrame = currentFrame
      ∧ (currentFrame < g.lastFrame →
          (mainLoopIteration F n keys currentFrame g gl).1.deltaTime < 0)
      ∧ (mainLoopIteration F n keys currentFrame g gl).2.map DrawRecord.model
          = [1, 1, earthModel F currentFrame, venusModel F currentFrame] := by
  obtain ⟨h1, h2⟩ := mainLoopIteration_fst F n keys currentFrame g gl
  refine ⟨h1, h2, ?_, ?_⟩
  · intro hlt
    rw [h1]
    exact sub_neg.mpr hlt
  · rw [mainLoopIteration_snd]
    rfl

/-- Witness for the amended C6: a frame at time 1 after a frame at time 2. -/
theorem frame_time_not_clamped_witness :
    (mainLoopIteration exactOps 0 ⟨false, false, false, false⟩ 1
        { initialGlobals with lastFrame := 2 } initialGL).1.deltaTime < 0 :=
  (frame_time_not_clamped exactOps 0 ⟨false, false, false, false⟩ 1
    { initialGlobals with lastFrame := 2 } initialGL).2.2.1 (by simp)

/-- C9: every frame issues exactly `1 + 3 = 4` draw calls, in the order starfield,
sun, Earth, Venus.  The starfield call draws points with the identity matrix
and the colour white, the sun's matrix has translation `(0, 0, 0)`, and the
sequence depends only on `currentFrame` (and the size of the sphere index
buffer), not on the keys, the globals or the previous OpenGL state. -/
theorem frame_draw_records {α : Type} [Field α] (F : FloatOps α) (n : Nat) (keys : Keys)
    (currentFrame : α) (g : Globals α) (gl : GLState α) :
    (mainLoopIteration F n keys currentFrame g gl).2
        = [⟨some VertexArray.starVAO, Primitive.GL_POINTS, numStars, 1, ⟨1, 1, 1⟩⟩,
           ⟨some VertexArray.sphereVAO, Primitive.GL_TRIANGLES, n, 1, ⟨1, 1 / 2, 1 / 5⟩⟩,
           ⟨some VertexArray.sphereVAO, Primitive.GL_TRIANGLES, n, earthModel F currentFrame,
             ⟨1 / 5, 1 / 2, 1⟩⟩,
           ⟨some VertexArray.sphereVAO, Primitive.GL_TRIANGLES, n, venusModel F currentFrame,
             ⟨9 / 10, 7 / 10, 3 / 10⟩⟩]
      ∧ (mainLoopIteration F n keys currentFrame g gl).2.length = 1 + 3
      ∧ (∀ sun, (mainLoopIteration F n keys currentFrame g gl).2[1]? = some sun →
          sun.model 0 3 = 0 ∧ sun.model 1 3 = 0 ∧ sun.model 2 3 = 0)
      ∧ (∀ (keys' : Keys) (g' : Globals α) (gl' : GLState α),
          (mainLoopIteration F n keys' currentFrame g' gl').2
            = (mainLoopIteration F n keys currentFrame g gl).2) := by
  refine ⟨mainLoopIteration_snd F n keys currentFrame g gl, ?_, ?_, ?_⟩
  · rw [mainLoopIteration_snd]
    rfl
  · intro sun hsun
    rw [mainLoopIteration_snd] at hsun
    simp only [List.getElem?_cons_succ, List.getElem?_cons_zero, Option.some.injEq] at hsun
    subst hsun
    simp
  · intro keys' g' gl'
    rw [mainLoopIteration_snd, mainLoopIteration_snd]

/-- Witness for C9: the sun of the first frame at time 0. -/
theorem frame_draw_records_witness :
    (⟨some VertexArray.sphereVAO, Primitive.GL_TRIANGLES, 9600, 1, ⟨1, 1 / 2, 1 / 5⟩⟩
        : DrawRecord ℝ).model 0 3 = 0
      ∧ (⟨some VertexArray.sphereVAO, Primitive.GL_TRIANGLES, 9600, 1, ⟨1, 1 / 2, 1 / 5⟩⟩
        : DrawRecord ℝ).model 1 3 = 0
      ∧ (⟨some VertexArray.sphereVAO, Primitive.GL_TRIANGLES, 9600, 1, ⟨1, 1 / 2, 1 / 5⟩⟩
        : DrawRecord ℝ).model 2 3 = 0 :=
  (frame_draw_records exactOps 9600 ⟨false, false, false, false⟩ 0 initialGlobals
    initialGL).2.2.1 _ (by rw [mainLoopIteration_snd]; rfl)

/-! ## Orbits and model matrices in exact arithmetic -/

theorem radians_exact (d : ℝ) : glm.radians exactOps d = d * (Real.pi / 180) := rfl

/-- C7: in exact real arithmetic the translation computed for Earth is the
orbital position `(R cos(w t + p), 0, R sin(w t + p))` with `R = 4`,
`w = radians(20)`, `p = 0`, and the one for Venus is that with `R = 2.5`,
`w = radians(35)`, `p = π`.  For phase 0 the orbital position is `(R, 0, 0)` at
`t = 0` and `(-R, 0, 0)` at `t = π / w` (`w ≠ 0`); Earth's translation is
`(4, 0, 0)` at `t = 0`, `(0, 0, 4)` at `t = 4.5`, and its `y` is 0 at every `t`. -/
theorem orbital_position :
    (∀ t : ℝ, earthPosition exactOps t = specOrbitalPosition 4 (glm.radians exactOps 20) 0 t)
      ∧ (∀ t : ℝ, venusPosition exactOps t
          = specOrbitalPosition (5 / 2) (glm.radians exactOps 35) Real.pi t)
      ∧ (∀ R w : ℝ, specOrbitalPosition R w 0 0 = ⟨R, 0, 0⟩)
      ∧ (∀ R w : ℝ, w ≠ 0 → specOrbitalPosition R w 0 (Real.pi / w) = ⟨-R, 0, 0⟩)
      ∧ earthPosition exactOps 0 = ⟨4, 0, 0⟩
      ∧ earthPosition exactOps (9 / 2) = ⟨0, 0, 4⟩
      ∧ (∀ t : ℝ, (earthPosition exactOps t).y = 0) := by
  refine ⟨?_, ?_, ?_, ?_, ?_, ?_, ?_⟩
  · intro t
    simp [earthPosition, specOrbitalPosition, exactOps]
  · intro t
    simp [venusPosition, specOrbitalPosition, exactOps]
  · intro R w
    simp [specOrbitalPosition]
  · intro R w hw
    have h : w * (Real.pi / w) + 0 = Real.pi := by field_simp
    simp [specOrbitalPosition, h]
  · simp [earthPosition, exactOps]
  · have h : glm.radians exactOps 20 * (9 / 2) = Real.pi / 2 := by
      rw [radians_exact]; ring
    simp only [earthPosition, h]
    simp [exactOps]
  · intro t
    rfl

/-- Witness for C7: half an orbit at angular speed 2 and radius 3. -/
theorem orbital_position_witness :
    specOrbitalPosition 3 2 0 (Real.pi / 2) = ⟨-3, 0, 0⟩ :=
  orbital_position.2.2.2.1 3 2 (by norm_num)

theorem mat4_one {α : Type} [Field α] : glm.mat4 (1 : α) = 1 := by
  simp [glm.mat4]

theorem translate_eq_mul {α : Type} [Field α] (m : Mat4 α) (v : Vec3 α) :
    glm.translate m v = m * specTranslate v.x v.y v.z := by
  ext i j
  fin_cases j <;>
    simp [glm.translate, specTranslate, Matrix.mul_apply, Fin.sum_univ_four, Matrix.cons_val',
      Matrix.vecHead, Matrix.vecTail]

theorem scale_eq_mul {α : Type} [Field α] (m : Mat4 α) (s : α) :
    glm.scale m (glm.vec3 s) = m * specScale s := by
  ext i j
  fin_cases j <;>
    simp [glm.scale, glm.vec3, specScale, Matrix.mul_apply, Fin.sum_univ_four, Matrix.cons_val',
      Matrix.vecHead, Matrix.vecTail]

theorem normalize_unit_y : glm.normalize exactOps (⟨0, 1, 0⟩ : Vec3 ℝ) = ⟨0, 1, 0⟩ := by
  simp [glm.normalize, glm.dot, Vec3.smul, exactOps]

theorem normalize_unit_z : glm.normalize exactOps (⟨0, 0, 1⟩ : Vec3 ℝ) = ⟨0, 0, 1⟩ := by
  simp [glm.normalize, glm.dot, Vec3.smul, exactOps]

theorem rotate_y_eq_mul (m : Mat4 ℝ) (θ : ℝ) :
    glm.rotate exactOps m θ ⟨0, 1, 0⟩ = m * specRotateY θ := by
  ext i j
  fin_cases j <;>
    simp only [glm.rotate, glm.rotateCoeff, normalize_unit_y, Vec3.smul] <;>
    simp [specRotateY, Matrix.mul_apply, Fin.sum_univ_four, exactOps, Matrix.cons_val',
      Matrix.vecHead, Matrix.vecTail]

theorem rotate_z_eq_mul (m : Mat4 ℝ) (θ : ℝ) :
    glm.rotate exactOps m θ ⟨0, 0, 1⟩ = m * specRotateZ θ := by
  ext i j
  fin_cases j <;>
    simp only [glm.rotate, glm.rotateCoeff, normalize_unit_z, Vec3.smul] <;>
    simp [specRotateZ, Matrix.mul_apply, Fin.sum_univ_four, exactOps, Matrix.cons_val',
      Matrix.vecHead, Matrix.vecTail]

theorem specRotateZ_zero : specRotateZ 0 = 1 := by
  ext i j
  fin_cases i <;> fin_cases j <;>
    simp [specRotateZ, Matrix.cons_val', Matrix.vecHead, Matrix.vecTail]

theorem earthModel_eq (t : ℝ) :
    earthModel exactOps t
      = specTranslate (earthPosition exactOps t).x 0 (earthPosition exactOps t).z
        * specRotateY (glm.radians exactOps 50 * t)
        * specRotateZ (glm.radians exactOps (47 / 2))
        * specScale (1 / 2) := by
  simp only [earthModel]
  rw [scale_eq_mul, rotate_z_eq_mul, rotate_y_eq_mul, translate_eq_mul, mat4_one, one_mul]
  rfl

theorem venusModel_eq (t : ℝ) :
    venusModel exactOps t
      = specTranslate (venusPosition exactOps t).x 0 (venusPosition exactOps t).z
        * specRotateY (glm.radians exactOps 30 * t)
        * specRotateZ 0
        * specScale (2 / 5) := by
  simp only [venusModel]
  rw [scale_eq_mul, rotate_y_eq_mul, translate_eq_mul, mat4_one, one_mul, specRotateZ_zero,
    mul_one]
  rfl

theorem translation_column (x y z θ φ s : ℝ) (i : Fin 4) :
    (specTranslate x y z * specRotateY θ * specRotateZ φ * specScale s) i 3
      = ![x, y, z, 1] i := by
  fin_cases i <;>
    simp [specTranslate, specRotateY, specRotateZ, specScale, Matrix.mul_apply,
      Fin.sum_univ_four, Matrix.cons_val', Matrix.vecHead, Matrix.vecTail]

/-- C8: in exact real arithmetic, for every time `t` the model matrix built for
Earth equals `Translate(x, 0, z) * RotateY(radians(50)·t) * RotateZ(radians(23.5))
* Scale(0.5)` and the one for Venus equals `Translate(x, 0, z) *
RotateY(radians(30)·t) * RotateZ(0) * Scale(0.4)`, with `(x, 0, z)` the body's
orbital position; applied to a vertex, the matrix scales first, then tilts about
Z, then spins about Y, then translates; and column 3 of the matrix is
`(x, 0, z, 1)`. -/
theorem model_matrix_composition (t : ℝ) :
    (earthModel exactOps t
        = specTranslate (earthPosition exactOps t).x 0 (earthPosition exactOps t).z
          * specRotateY (glm.radians exactOps 50 * t)
          * specRotateZ (glm.radians exactOps (47 / 2))
          * specScale (1 / 2))
      ∧ (venusModel exactOps t
        = specTranslate (venusPosition exactOps t).x 0 (venusPosition exactOps t).z
          * specRotateY (glm.radians exactOps 30 * t)
          * specRotateZ 0
          * specScale (2 / 5))
      ∧ (∀ v : Fin 4 → ℝ, (earthModel exactOps t).mulVec v
          = (specTranslate (earthPosition exactOps t).x 0 (earthPosition exactOps t).z).mulVec
              ((specRotateY (glm.radians exactOps 50 * t)).mulVec
                ((specRotateZ (glm.radians exactOps (47 / 2))).mulVec
                  ((specScale (1 / 2)).mulVec v))))
      ∧ (∀ v : Fin 4 → ℝ, (venusModel exactOps t).mulVec v
          = (specTranslate (venusPosition exactOps t).x 0 (venusPosition exactOps t).z).mulVec
              ((specRotateY (glm.radians exactOps 30 * t)).mulVec
                ((specRotateZ 0).mulVec ((specScale (2 / 5)).mulVec v))))
      ∧ (∀ i : Fin 4, earthModel exactOps t i 3
          = ![(earthPosition exactOps t).x, 0, (earthPosition exactOps t).z, 1] i)
      ∧ (∀ i : Fin 4, venusModel exactOps t i 3
          = ![(venusPosition exactOps t).x, 0, (venusPosition exactOps t).z, 1] i) := by
  refine ⟨earthModel_eq t, venusModel_eq t, ?_, ?_, ?_, ?_⟩
  · intro v
    rw [earthModel_eq]
    simp only [Matrix.mulVec_mulVec, Matrix.mul_assoc]
  · intro v
    rw [venusModel_eq]
    simp only [Matrix.mulVec_mulVec, Matrix.mul_assoc]
  · intro i
    rw [earthModel_eq]
    exact translation_column _ _ _ _ _ _ i
  · intro i
    rw [venusModel_eq]
    exact translation_column _ _ _ _ _ _ i

/-! ## Star field -/

theorem forLoop_const {σ : Type} (n : Int) (f : σ → σ) (init : σ) :
    forLoop n (fun s _ => f s) init = f^[n.toNat] init := by
  unfold forLoop
  induction n.toNat with
  | zero => rfl
  | succ k ih =>
    rw [List.range_succ, List.foldl_append, ih, Function.iterate_succ_apply']
    rfl

theorem rejectionLoop_spec {α : Type} (A : FloatArith α) (radius : α) (gen : List α) :
    match rejectionLoop A radius gen with
    | none => acceptedCount A radius gen = 0
    | some ((x, y, z), gen') =>
      A.gt (sumOfSquares A x y z) (A.mul radius radius) = false
        ∧ acceptedCount A radius gen = acceptedCount A radius gen' + 1 := by
  induction gen using rejectionLoop.induct A radius with
  | case1 x y z gen hgt ih =>
    rw [rejectionLoop, if_pos hgt, acceptedCount, if_pos hgt, Nat.zero_add]
    exact ih
  | case2 x y z gen hle =>
    rw [rejectionLoop, if_neg hle, acceptedCount, if_neg hle]
    exact ⟨Bool.not_eq_true _ ▸ hle, by omega⟩
  | case3 t ht =>
    rw [rejectionLoop]
    · rw [acceptedCount]
      intro x y z gen h
      exact ht x y z gen h
    · intro x y z gen h
      exact ht x y z gen h

theorem starsAccepted_push {α : Type} (A : FloatArith α) (radius : α) (stars : List α)
    (n : Nat) (x y z : α) (h : StarsAccepted A radius stars n)
    (hxyz : A.gt (sumOfSquares A x y z) (A.mul radius radius) = false) :
    StarsAccepted A radius (stars ++ [x, y, z]) (n + 1) := by
  obtain ⟨hlen, hpts⟩ := h
  refine ⟨by simp [hlen]; ring, ?_⟩
  intro k hk
  by_cases hkn : k < n
  · obtain ⟨a, b, c, hv, hin⟩ := hpts k hkn
    refine ⟨a, b, c, ?_, hin⟩
    unfold vertexAt at hv ⊢
    rw [List.getElem?_append_left (by omega), List.getElem?_append_left (by omega),
      List.getElem?_append_left (by omega)]
    exact hv
  · have hk' : k = n := by omega
    subst hk'
    refine ⟨x, y, z, ?_, hxyz⟩
    unfold vertexAt
    rw [List.getElem?_append_right (by omega), List.getElem?_append_right (by omega),
      List.getElem?_append_right (by omega), hlen]
    simp

theorem iterate_starfieldBody {α : Type} (A : FloatArith α) (radius : α) (gen : List α)
    (n : Nat) :
    match (starfieldBody A radius)^[n] (some ([], gen)) with
    | none => acceptedCount A radius gen < n
    | some (stars, gen') =>
      acceptedCount A radius gen' + n = acceptedCount A radius gen
        ∧ StarsAccepted A radius stars n := by
  induction n with
  | zero =>
    simp only [Function.iterate_zero, id_eq]
    exact ⟨rfl, rfl, fun k hk => absurd hk (Nat.not_lt_zero k)⟩
  | succ n ih =>
    rw [Function.iterate_succ_apply']
    cases hst : (starfieldBody A radius)^[n] (some ([], gen)) with
    | none =>
      rw [hst] at ih
      simp only [starfieldBody]
      exact Nat.lt_succ_of_lt ih
    | some st =>
      obtain ⟨stars, gen'⟩ := st
      rw [hst] at ih
      obtain ⟨hcount, hstars⟩ := ih
      have hrej := rejectionLoop_spec A radius gen'
      simp only [starfieldBody]
      cases hr : rejectionLoop A radius gen' with
      | none =>
        rw [hr] at hrej
        simp only
        omega
      | some res =>
        obtain ⟨⟨x, y, z⟩, gen''⟩ := res
        rw [hr] at hrej
        obtain ⟨hin, hc⟩ := hrej
        simp only
        exact ⟨by omega, starsAccepted_push A radius stars n x y z hstars hin⟩

theorem roundNearestEven_of_lt (q : ℚ) (n : ℤ) (h1 : (n : ℚ) ≤ q) (h2 : q - n < 1 / 2) :
    roundNearestEven q = n := by
  have hf : ⌊q⌋ = n := by
    rw [Int.floor_eq_iff]
    exact ⟨h1, by linarith⟩
  unfold roundNearestEven
  rw [hf, if_pos h2]

theorem roundBinary32_of (q : ℚ) (e n : ℤ) (he : -126 ≤ e) (h1 : (2 : ℚ) ^ e ≤ |q|)
    (h2 : |q| < (2 : ℚ) ^ (e + 1)) (hn : roundNearestEven (q / 2 ^ (e - 23)) = n) :
    roundBinary32 q = (n : ℚ) * 2 ^ (e - 23) := by
  have hpos : 0 < |q| := lt_of_lt_of_le (by positivity) h1
  have hlog : Int.log 2 |q| = e := by
    apply le_antisymm
    · have := (Int.lt_zpow_iff_log_lt (b := 2) (by norm_num) hpos (x := e + 1)).mp
        (by exact_mod_cast h2)
      omega
    · exact (Int.zpow_le_iff_le_log (b := 2) (by norm_num) hpos).mp (by exact_mod_cast h1)
  unfold roundBinary32
  simp only [hlog, max_eq_left he, hn]

/-- The draws `2 + 2^-21` and `2 - 2^-21` are binary32 numbers. -/
theorem roundBinary32_draws :
    roundBinary32 (4194305 / 2097152) = 4194305 / 2097152
      ∧ roundBinary32 (4194303 / 2097152) = 4194303 / 2097152 := by
  constructor
  · rw [roundBinary32_of _ 1 8388610 (by norm_num) (by norm_num [abs_of_pos])
      (by norm_num [abs_of_pos]) (roundNearestEven_of_lt _ _ (by norm_num) (by norm_num))]
    norm_num
  · rw [roundBinary32_of _ 0 16777212 (by norm_num) (by norm_num [abs_of_pos])
      (by norm_num [abs_of_pos]) (roundNearestEven_of_lt _ _ (by norm_num) (by norm_num))]
    norm_num

/-- On the draws `2 + 2^-21, 2 - 2^-21, 1` with radius 3 the binary32 test accepts the
first candidate: `x*x` rounds to `4 + 2^-19`, `y*y` rounds to `4 - 2^-19`, their
sum is 8, adding `z*z = 1` gives 9, and `9 > 9` is false. -/
theorem generateStarfield_binary32_boundary :
    generateStarfield binary32 1 3 [4194305 / 2097152, 4194303 / 2097152, 1]
      = some [4194305 / 2097152, 4194303 / 2097152, 1] := by
  have h1 : binary32.mul (4194305 / 2097152) (4194305 / 2097152) = 2097153 / 524288 := by
    show roundBinary32 (4194305 / 2097152 * (4194305 / 2097152)) = 2097153 / 524288
    rw [roundBinary32_of _ 2 8388612 (by norm_num) (by norm_num [abs_of_pos])
      (by norm_num [abs_of_pos]) (roundNearestEven_of_lt _ _ (by norm_num) (by norm_num))]
    norm_num
  have h2 : binary32.mul (4194303 / 2097152) (4194303 / 2097152) = 2097151 / 524288 := by
    show roundBinary32 (4194303 / 2097152 * (4194303 / 2097152)) = 2097151 / 524288
    rw [roundBinary32_of _ 1 16777208 (by norm_num) (by norm_num [abs_of_pos])
      (by norm_num [abs_of_pos]) (roundNearestEven_of_lt _ _ (by norm_num) (by norm_num))]
    norm_num
  have h3 : binary32.add (2097153 / 524288) (2097151 / 524288) = 8 := by
    show roundBinary32 (2097153 / 524288 + 2097151 / 524288) = 8
    rw [roundBinary32_of _ 3 8388608 (by norm_num) (by norm_num [abs_of_pos])
      (by norm_num [abs_of_pos]) (roundNearestEven_of_lt _ _ (by norm_num) (by norm_num))]
    norm_num
  have h4 : binary32.mul 1 1 = 1 := by
    show roundBinary32 (1 * 1) = 1
    rw [roundBinary32_of _ 0 8388608 (by norm_num) (by norm_num) (by norm_num)
      (roundNearestEven_of_lt _ _ (by norm_num) (by norm_num))]
    norm_num
  have h5 : binary32.add 8 1 = 9 := by
    show roundBinary32 (8 + 1) = 9
    rw [roundBinary32_of _ 3 9437184 (by norm_num) (by norm_num) (by norm_num)
      (roundNearestEven_of_lt _ _ (by norm_num) (by norm_num))]
    norm_num
  have h6 : binary32.mul 3 3 = 9 := by
    show roundBinary32 (3 * 3) = 9
    rw [roundBinary32_of _ 3 9437184 (by norm_num) (by norm_num) (by norm_num)
      (roundNearestEven_of_lt _ _ (by norm_num) (by norm_num))]
    norm_num
  have h7 : binary32.gt 9 9 = false := by
    show decide ((9 : ℚ) < 9) = false
    simp
  rw [generateStarfield, if_neg (by norm_num), forLoop_const]
  simp only [Int.toNat_one, Function.iterate_one, starfieldBody, rejectionLoop, sumOfSquares,
    h1, h2, h3, h4, h5, h6, h7]
  rfl

/-- C4, counterexample: with radius 3 and the draws `2 + 2^-21, 2 - 2^-21, 1` (binary32
values in `[-3, 3)`), `generateStarfield` returns the point
`(2 + 2^-21, 2 - 2^-21, 1)`, whose `x² + y² + z²` is `9 + 2^-41 > 9 = radius²`: the
products are rounded to `4 + 2^-19` and `4 - 2^-19` before they are added, and the
sum compared with `radius*radius` is 9. -/
theorem generateStarfield_bound_counterexample :
    generateStarfield binary32 1 3 [4194305 / 2097152, 4194303 / 2097152, 1]
        = some [4194305 / 2097152, 4194303 / 2097152, 1]
      ∧ vertexAt ([4194305 / 2097152, 4194303 / 2097152, 1] : List ℚ) 0
          = some (4194305 / 2097152, 4194303 / 2097152, 1)
      ∧ (4194305 / 2097152 : ℚ) * (4194305 / 2097152)
          + 4194303 / 2097152 * (4194303 / 2097152) + 1 * 1 > 3 * 3
      ∧ roundBinary32 (4194305 / 2097152) = 4194305 / 2097152
      ∧ roundBinary32 (4194303 / 2097152) = 4194303 / 2097152 := by
  refine ⟨generateStarfield_binary32_boundary, rfl, ?_, roundBinary32_draws.1,
    roundBinary32_draws.2⟩
  norm_num

/-- C4, amended: for `numStars ≥ 0`, every radius and every interpretation of the
`float` operations, on a random source `gen` the rejection loops of
`generateStarfield` all finish exactly when the source holds at least `numStars`
candidates that pass the test; whenever they finish, the result has exactly
`3 * numStars` floats, i.e. `numStars` points, and every point passes the test
as the program computes it: the rounded `x*x + y*y + z*z` is not greater than
the rounded `radius*radius`, so no candidate that fails the test is emitted. -/
theorem generateStarfield_rounded_test {α : Type} (A : FloatArith α) (numStars : Int)
    (radius : α) (gen : List α) (hn : 0 ≤ numStars) :
    ((generateStarfield A numStars radius gen).isSome
        ↔ numStars ≤ (acceptedCount A radius gen : Int))
      ∧ ∀ stars, generateStarfield A numStars radius gen = some stars →
          (stars.length : Int) = 3 * numStars
          ∧ ∀ k : Nat, (k : Int) < numStars →
              ∃ x y z, vertexAt stars k = some (x, y, z)
                ∧ A.gt (sumOfSquares A x y z) (A.mul radius radius) = false := by
  lift numStars to Nat using hn with n
  have hiter := iterate_starfieldBody A radius gen n
  have hdef : generateStarfield A (n : Int) radius gen
      = ((starfieldBody A radius)^[n] (some ([], gen))).map Prod.fst := by
    rw [generateStarfield, if_neg (by omega), forLoop_const, Int.toNat_ofNat]
  rw [hdef]
  cases hst : (starfieldBody A radius)^[n] (some ([], gen)) with
  | none =>
    rw [hst] at hiter
    simp only [Option.map_none', Option.isSome_none, Bool.false_eq_true, false_iff, not_le]
    refine ⟨by exact_mod_cast hiter, ?_⟩
    intro stars h
    cases h
  | some st =>
    obtain ⟨stars, gen'⟩ := st
    rw [hst] at hiter
    obtain ⟨hcount, hlen, hpts⟩ := hiter
    simp only [Option.map_some', Option.isSome_some, true_iff, Option.some.injEq]
    refine ⟨by omega, ?_⟩
    intro stars' h
    subst h
    refine ⟨by rw [hlen]; push_cast; ring, ?_⟩
    intro k hk
    exact hpts k (by exact_mod_cast hk)

/-- Witness for the amended C4: one star of radius 3 from the binary32 draws
`2 + 2^-21, 2 - 2^-21, 1`. -/
theorem generateStarfield_rounded_test_witness :
    (([4194305 / 2097152, 4194303 / 2097152, 1] : List ℚ).length : Int) = 3 * 1
      ∧ ∀ k : Nat, (k : Int) < 1 →
          ∃ x y z, vertexAt ([4194305 / 2097152, 4194303 / 2097152, 1] : List ℚ) k
              = some (x, y, z)
            ∧ binary32.gt (sumOfSquares binary32 x y z) (binary32.mul 3 3) = false :=
  (generateStarfield_rounded_test binary32 1 3 [4194305 / 2097152, 4194303 / 2097152, 1]
    (by norm_num)).2 [4194305 / 2097152, 4194303 / 2097152, 1]
    generateStarfield_binary32_boundary

end SolarSystem
